import Mathlib

/-!
Shallow embedding of `src/slack2opsgenie_lambda/slack2opsgenie.py`, the single
source file of the `terraform-aws-module-slack2opsgenie` repository: a webhook
handler that verifies Slack request signatures, resolves channel/user names
with in-process caches, filters events, builds an OpsGenie-style payload, and
enqueues it to SQS.

Python's dynamically-typed JSON values are modelled by the mutual inductive
`Json` (with `JArr`/`JObj` for nested lists to keep recursion structural).
Python's `None` is `Json.null`; absence of a dict key is modelled separately
where the source distinguishes it (`"bot_id" in ev`). Exceptions are modelled
with `Except PyErr`. The external collaborators (HMAC-SHA256 from `hashlib`,
the Slack Web API, the SQS client, `os.environ`, `time.time`) are fields of a
`World` record; the source's module-level caches are threaded explicitly.
-/

namespace Slack2Opsgenie

mutual

/-- Dynamically-typed Python/JSON values as produced by `json.loads`. -/
inductive Json where
  | null
  | bool (b : Bool)
  | num (n : Int)
  | str (s : String)
  | arr (elems : JArr)
  | obj (fields : JObj)

/-- A Python list of `Json` values. -/
inductive JArr where
  | nil
  | cons (hd : Json) (tl : JArr)

/-- A Python dict with string keys and `Json` values, in insertion order. -/
inductive JObj where
  | nil
  | cons (key : String) (val : Json) (tl : JObj)

end

/-- Build a `JArr` from a Lean list literal. -/
def jarr : List Json → JArr
  | [] => .nil
  | x :: xs => .cons x (jarr xs)

/-- Build a `JObj` from a Lean list literal of key/value pairs. -/
def jobj : List (String × Json) → JObj
  | [] => .nil
  | (k, v) :: rest => .cons k v (jobj rest)

mutual

/-- Python `==` on JSON values: structural, with the bool/int coercion
(`True == 1`). Dict comparison is modelled order-sensitively; the source
never compares dicts for equality on any path a claim exercises. -/
def pyEq : Json → Json → Bool
  | .null, .null => true
  | .bool a, .bool b => a == b
  | .bool a, .num m => (if a then (1 : Int) else 0) == m
  | .num n, .bool b => n == (if b then (1 : Int) else 0)
  | .num n, .num m => n == m
  | .str s, .str t => s == t
  | .arr xs, .arr ys => pyEqArr xs ys
  | .obj xs, .obj ys => pyEqObj xs ys
  | _, _ => false

/-- Elementwise Python `==` on lists. -/
def pyEqArr : JArr → JArr → Bool
  | .nil, .nil => true
  | .cons h t, .cons h2 t2 => pyEq h h2 && pyEqArr t t2
  | _, _ => false

/-- Python `==` on dicts (modelled in insertion order). -/
def pyEqObj : JObj → JObj → Bool
  | .nil, .nil => true
  | .cons k v t, .cons k2 v2 t2 => k == k2 && pyEq v v2 && pyEqObj t t2
  | _, _ => false

end

/-- Python truthiness of a JSON value. -/
def pyTruthy : Json → Bool
  | .null => false
  | .bool b => b
  | .num n => n != 0
  | .str s => s != ""
  | .arr .nil => false
  | .arr _ => true
  | .obj .nil => false
  | .obj _ => true

/-- Python values that are unhashable (cannot be dict keys / set members). -/
def isUnhashable : Json → Bool
  | .arr _ => true
  | .obj _ => true
  | _ => false

/-- Lookup of a string key in a dict, first match. -/
def JObj.lookupKey : JObj → String → Option Json
  | .nil, _ => none
  | .cons k v t, key => if k = key then some v else JObj.lookupKey t key

/-- Python `key in dict` for a string key. -/
def JObj.hasKey : JObj → String → Bool
  | .nil, _ => false
  | .cons k _ t, key => k == key || JObj.hasKey t key

/-- Python `x in list`: membership via `==`. -/
def JArr.containsVal : JArr → Json → Bool
  | .nil, _ => false
  | .cons h t, x => pyEq h x || JArr.containsVal t x

mutual

/-- Python `str()` of a JSON value (`f"{x}"` formatting). Containers render
via `repr`; string escaping inside `repr` is elided, which no claim relies on. -/
def pyStr : Json → String
  | .null => "None"
  | .bool b => if b then "True" else "False"
  | .num n => toString n
  | .str s => s
  | .arr xs => "[" ++ pyReprArr xs ++ "]"
  | .obj kvs => "\x7b" ++ pyReprObj kvs ++ "\x7d"

/-- Python `repr()` of a JSON value (escaping elided). -/
def pyRepr : Json → String
  | .null => "None"
  | .bool b => if b then "True" else "False"
  | .num n => toString n
  | .str s => "\x27" ++ s ++ "\x27"
  | .arr xs => "[" ++ pyReprArr xs ++ "]"
  | .obj kvs => "\x7b" ++ pyReprObj kvs ++ "\x7d"

/-- Comma-separated `repr` of list elements. -/
def pyReprArr : JArr → String
  | .nil => ""
  | .cons h .nil => pyRepr h
  | .cons h t => pyRepr h ++ ", " ++ pyReprArr t

/-- Comma-separated `repr` of dict items. -/
def pyReprObj : JObj → String
  | .nil => ""
  | .cons k v .nil => "\x27" ++ k ++ "\x27: " ++ pyRepr v
  | .cons k v t => "\x27" ++ k ++ "\x27: " ++ pyRepr v ++ ", " ++ pyReprObj t

end

mutual

/-- Python `json.dumps` (default separators; string escaping elided, which no
claim inspects). -/
def jsonDumps : Json → String
  | .null => "null"
  | .bool b => if b then "true" else "false"
  | .num n => toString n
  | .str s => "\"" ++ s ++ "\""
  | .arr xs => "[" ++ jsonDumpsArr xs ++ "]"
  | .obj kvs => "\x7b" ++ jsonDumpsObj kvs ++ "\x7d"

/-- Comma-separated `json.dumps` of list elements. -/
def jsonDumpsArr : JArr → String
  | .nil => ""
  | .cons h .nil => jsonDumps h
  | .cons h t => jsonDumps h ++ ", " ++ jsonDumpsArr t

/-- Comma-separated `json.dumps` of dict items. -/
def jsonDumpsObj : JObj → String
  | .nil => ""
  | .cons k v .nil => "\"" ++ k ++ "\": " ++ jsonDumps v
  | .cons k v t => "\"" ++ k ++ "\": " ++ jsonDumps v ++ ", " ++ jsonDumpsObj t

end

/-- Does `needle` occur as a contiguous substring of `hay` (Python `in` on
strings)? -/
def hasSubstr (needle : List Char) : List Char → Bool
  | [] => needle.isEmpty
  | c :: t => needle.isPrefixOf (c :: t) || hasSubstr needle t

/-- Exceptions the handler can raise. -/
inductive PyErr where
  | keyError (key : String)
  | attributeError
  | typeError
  | jsonDecodeError
  | sinkError (msg : String)
deriving DecidableEq

/-- Python dict `.get` on a string-keyed dict of strings (headers, environ). -/
def dictGet : List (String × String) → String → Option String
  | [], _ => none
  | (k, v) :: rest, key => if k = key then some v else dictGet rest key

/-- ASCII lowercasing of one character (Python `str.lower()` restricted to
ASCII, which covers the header names the source lowercases). -/
def asciiLower (c : Char) : Char :=
  if 65 ≤ c.toNat ∧ c.toNat ≤ 90 then Char.ofNat (c.toNat + 32) else c

/-- ASCII `str.lower()`. -/
def lowerString (s : String) : String := String.mk (s.data.map asciiLower)

/-- External collaborators of the handler: the HMAC-SHA256 hex digest
primitive (`hmac`/`hashlib`), the Slack Web API reached through
`urllib.request` (path and query params to parsed-JSON response or raised
exception), the SQS client (`sqs.send_message`, with the payload kept as a
JSON value), `os.environ`, and the current `time.time()` clock. -/
structure World where
  hmacSha256Hex : String → String → String
  slackApi : String → List (String × Json) → Except String Json
  sqsSend : String → Json → Except String Unit
  env : List (String × String)
  now : Int

/-- MAX_AGE_SECONDS = 60 * 5 (5 minutes replay protection). -/
def MAX_AGE_SECONDS : Nat := 60 * 5

/-- Embeds `_get_header`: `headers.get(name) or headers.get(name.lower())`,
where an empty dict and an empty first lookup are falsy. -/
def _get_header (headers : List (String × String)) (name : String) : Option String :=
  if headers = [] then none
  else
    match dictGet headers name with
    | some v => if v ≠ "" then some v else dictGet headers (lowerString name)
    | none => dictGet headers (lowerString name)

/-- Python `int(s)`: surrounding whitespace stripped, optional sign, decimal
digits (digit-group underscores and non-ASCII digits are not modelled; no
claim uses them). -/
def digitsVal (cs : List Char) : Option Nat :=
  if cs = [] then none
  else if cs.all Char.isDigit then
    some (cs.foldl (fun a c => a * 10 + (c.toNat - 48)) 0)
  else none

/-- Strip leading and trailing whitespace. -/
def trimWs (cs : List Char) : List Char :=
  ((cs.dropWhile Char.isWhitespace).reverse.dropWhile Char.isWhitespace).reverse

/-- Python `int(s)` returning `none` where `int()` raises `ValueError`. -/
def pyInt? (s : String) : Option Int :=
  match trimWs s.data with
  | '-' :: rest => (digitsVal rest).map (fun n => -(n : Int))
  | '+' :: rest => (digitsVal rest).map (fun n => (n : Int))
  | cs => (digitsVal cs).map (fun n => (n : Int))

/-- Embeds `_verify_slack_signature` (source lines 24-47). The two header
lookups, the `if not ts or not sig` falsiness check, `int(ts)` parsing, the
`abs(int(time.time()) - ts_int) > MAX_AGE_SECONDS` replay window, the
recomputation `"v0=" + HMAC-SHA256(secret, f"v0:{ts}:{raw_body}").hexdigest()`
and the `hmac.compare_digest` equality. A missing `SLACK_SIGNING_SECRET`
environment variable raises `KeyError` as `os.environ[...]` does. -/
def _verify_slack_signature (w : World) (headers : List (String × String))
    (raw_body : String) : Except PyErr (Bool × String) :=
  match _get_header headers "X-Slack-Request-Timestamp",
        _get_header headers "X-Slack-Signature" with
  | none, _ => .ok (false, "missing_slack_headers")
  | some _, none => .ok (false, "missing_slack_headers")
  | some ts, some sig =>
    if ts = "" ∨ sig = "" then .ok (false, "missing_slack_headers")
    else
      match pyInt? ts with
      | none => .ok (false, "bad_timestamp")
      | some ts_int =>
        if MAX_AGE_SECONDS < (w.now - ts_int).natAbs then
          .ok (false, "timestamp_out_of_range")
        else
          match dictGet w.env "SLACK_SIGNING_SECRET" with
          | none => .error (.keyError "SLACK_SIGNING_SECRET")
          | some signing_secret =>
            let basestring := "v0:" ++ ts ++ ":" ++ raw_body
            let expected := "v0=" ++ w.hmacSha256Hex signing_secret basestring
            if expected = sig then .ok (true, "ok")
            else .ok (false, "signature_mismatch")

/-- Embeds `_slack_api_get` (source lines 50-67): reads `BOT_USER_TOKEN` from
the environment (raising `KeyError` if absent, which callers catch with the
rest of the network failures) and performs the GET through the abstract Slack
API. The `Except.error` payload stands for any raised exception: network
error, timeout, non-JSON response body, missing token. -/
def _slack_api_get (w : World) (path : String) (params : List (String × Json)) :
    Except String Json :=
  match dictGet w.env "BOT_USER_TOKEN" with
  | none => .error "KeyError: BOT_USER_TOKEN"
  | some _ => w.slackApi path params

/-- Lookup in a warm cache (a Python dict keyed by the identifier value,
equality via Python `==`). -/
def cacheLookup : List (Json × Json) → Json → Option Json
  | [], _ => none
  | (k, v) :: rest, key => if pyEq k key then some v else cacheLookup rest key

/-- Embeds `get_channel_name` (source lines 70-106). Returns the resolved
name, the updated `_CHANNEL_CACHE`, and the number of external lookup calls
attempted (0 or 1). An unhashable identifier raises `TypeError` at the
`channel_id in _CHANNEL_CACHE` membership test. -/
def get_channel_name (w : World) (cache : List (Json × Json)) (channel_id : Json) :
    Except PyErr (Json × List (Json × Json) × Nat) :=
  if ¬ pyTruthy channel_id then .ok (.str "unknown", cache, 0)
  else if isUnhashable channel_id then .error .typeError
  else
    match cacheLookup cache channel_id with
    | some v => .ok (v, cache, 0)
    | none =>
      let name : Json :=
        match _slack_api_get w "conversations.info" [("channel", channel_id)] with
        | .error _ => channel_id
        | .ok data =>
          match data with
          | .obj fields =>
            if pyTruthy ((fields.lookupKey "ok").getD .null) then
              match (fields.lookupKey "channel").getD .null with
              | .obj ch =>
                let n := (ch.lookupKey "name").getD .null
                if pyTruthy n then n else channel_id
              | _ => channel_id
            else channel_id
          | _ => channel_id
      .ok (name, (channel_id, name) :: cache, 1)

/-- Embeds `get_user_name` (source lines 108-144), identical in shape to
`get_channel_name` but on `users.info`, the `"user"` field and
`_USER_CACHE`. -/
def get_user_name (w : World) (cache : List (Json × Json)) (user_id : Json) :
    Except PyErr (Json × List (Json × Json) × Nat) :=
  if ¬ pyTruthy user_id then .ok (.str "unknown", cache, 0)
  else if isUnhashable user_id then .error .typeError
  else
    match cacheLookup cache user_id with
    | some v => .ok (v, cache, 0)
    | none =>
      let name : Json :=
        match _slack_api_get w "users.info" [("user", user_id)] with
        | .error _ => user_id
        | .ok data =>
          match data with
          | .obj fields =>
            if pyTruthy ((fields.lookupKey "ok").getD .null) then
              match (fields.lookupKey "user").getD .null with
              | .obj u =>
                let n := (u.lookupKey "name").getD .null
                if pyTruthy n then n else user_id
              | _ => user_id
            else user_id
          | _ => user_id
      .ok (name, (user_id, name) :: cache, 1)

/-- The two module-level warm caches `_CHANNEL_CACHE` and `_USER_CACHE`. -/
structure Caches where
  channel : List (Json × Json)
  user : List (Json × Json)

/-- Python `x.get(k)`: `Json.null` when the key is absent, `AttributeError`
when `x` is not a dict. -/
def pyGet (j : Json) (k : String) : Except PyErr Json :=
  match j with
  | .obj kvs => .ok ((kvs.lookupKey k).getD .null)
  | _ => .error .attributeError

/-- Python `x.get(k, default)`. -/
def pyGetD (j : Json) (k : String) (d : Json) : Except PyErr Json :=
  match j with
  | .obj kvs => .ok ((kvs.lookupKey k).getD d)
  | _ => .error .attributeError

/-- Python `x[k]` subscription with a string key: `KeyError` when absent,
`TypeError` when `x` does not support string subscription. -/
def pySubscript (j : Json) (k : String) : Except PyErr Json :=
  match j with
  | .obj kvs =>
    match kvs.lookupKey k with
    | none => .error (.keyError k)
    | some v => .ok v
  | _ => .error .typeError

/-- Python `x in y` for `y` a string (substring), list (membership) or dict
(key containment); `TypeError` otherwise or for an unhashable key in a
dict. -/
def pyIn (x : Json) (container : Json) : Except PyErr Bool :=
  match container with
  | .str s =>
    match x with
    | .str n => .ok (hasSubstr n.data s.data)
    | _ => .error .typeError
  | .arr xs => .ok (xs.containsVal x)
  | .obj kvs =>
    if isUnhashable x then .error .typeError
    else
      match x with
      | .str k => .ok (kvs.hasKey k)
      | _ => .ok false
  | _ => .error .typeError

/-- Python `os.getenv(k, default)`. -/
def getenvD (w : World) (k d : String) : String := (dictGet w.env k).getD d

/-- Embeds `_build_direct_message_payload` (source lines 148-180): reads the
event fields with `.get` defaults, resolves both names (threading the warm
caches), computes `event_id = slack_body.get("event_id") or
f"{channel_id}-{ts}"`, the readable channel, the 100-character-truncated
subject, and returns the payload dict together with the updated caches. -/
def _build_direct_message_payload (w : World) (st : Caches) (slack_body : Json) :
    Except PyErr (Json × Caches) :=
  match pyGetD slack_body "event" (.obj .nil) with
  | .error e => .error e
  | .ok ev =>
    match pyGetD ev "text" (.str "") with
    | .error e => .error e
    | .ok text =>
      match pyGetD ev "channel" (.str "unknown") with
      | .error e => .error e
      | .ok channel_id =>
        match get_channel_name w st.channel channel_id with
        | .error e => .error e
        | .ok (channel_name, chCache, _) =>
          match pyGetD ev "user" (.str "unknown") with
          | .error e => .error e
          | .ok user_id =>
            match get_user_name w st.user user_id with
            | .error e => .error e
            | .ok (user_name, uCache, _) =>
              match pyGetD ev "ts" (.str "no-ts") with
              | .error e => .error e
              | .ok ts =>
                match pyGet slack_body "event_id" with
                | .error e => .error e
                | .ok event_id_raw =>
                  let event_id : Json :=
                    if pyTruthy event_id_raw then event_id_raw
                    else .str (pyStr channel_id ++ "-" ++ pyStr ts)
                  let client_name := getenvD w "CLIENT_NAME" "CustomerSlackChannel"
                  let sla := getenvD w "DEFAULT_SLA" "24x7"
                  let priority := getenvD w "DEFAULT_PRIORITY" "P1"
                  let readable_channel : Json :=
                    if ¬ pyEq channel_name channel_id then
                      .str ("#" ++ pyStr channel_name)
                    else channel_id
                  let subject :=
                    ("Slack message in " ++ pyStr readable_channel ++ " from "
                      ++ pyStr user_name).take 100
                  .ok (.obj (jobj [
                    ("direct_message", .bool true),
                    ("subject", .str subject),
                    ("message", .str ("Channel: " ++ pyStr readable_channel
                      ++ "\nUser: " ++ pyStr user_name ++ "\n\n" ++ pyStr text)),
                    ("alias", .str ("slack-" ++ pyStr event_id)),
                    ("client_name", .str client_name),
                    ("sla", .str sla),
                    ("account_id", channel_id),
                    ("account_name", readable_channel),
                    ("priority", .str priority)]),
                   { channel := chCache, user := uCache })

/-- Skip JSON whitespace. -/
def skipWs : List Char → List Char
  | [] => []
  | c :: cs => if c.isWhitespace then skipWs cs else c :: cs

/-- Decode one character escape in a JSON string literal (`\uXXXX` escapes are
not modelled; no claim uses them). -/
def escChar (e : Char) : Option Char :=
  if e = 'n' then some '\n'
  else if e = 't' then some '\t'
  else if e = 'r' then some '\r'
  else if e = '"' ∨ e = '\\' ∨ e = '/' then some e
  else if e = 'b' then some (Char.ofNat 8)
  else if e = 'f' then some (Char.ofNat 12)
  else none

/-- Parse the remainder of a JSON string literal, the opening quote already
consumed; returns the decoded string and the input after the closing quote. -/
def parseStringLit : List Char → Option (String × List Char)
  | [] => none
  | '"' :: rest => some ("", rest)
  | '\\' :: e :: rest =>
    match escChar e with
    | some c => (parseStringLit rest).map (fun p => (String.mk (c :: p.1.data), p.2))
    | none => none
  | c :: rest => (parseStringLit rest).map (fun p => (String.mk (c :: p.1.data), p.2))

/-- Parse a nonempty run of decimal digits into a `Nat`; rejects a following
fraction or exponent (floats are not modelled; no claim parses one). -/
def parseDigitRun (cs : List Char) : Option (Nat × List Char) :=
  let ds := cs.takeWhile Char.isDigit
  if ds = [] then none
  else
    match cs.drop ds.length with
    | '.' :: _ => none
    | 'e' :: _ => none
    | 'E' :: _ => none
    | rest => some (ds.foldl (fun a c => a * 10 + (c.toNat - 48)) 0, rest)

/-- Match the expected literal tail `lit` at the head of the input, returning
the remainder. -/
def stripLit : List Char → List Char → Option (List Char)
  | [], rest => some rest
  | l :: ls, c :: rest => if c = l then stripLit ls rest else none
  | _ :: _, [] => none

/-- Parse a JSON integer with optional leading minus. -/
def parseNumber (cs : List Char) : Option (Json × List Char) :=
  match cs with
  | '-' :: rest => (parseDigitRun rest).map (fun p => (.num (-(p.1 : Int)), p.2))
  | _ => (parseDigitRun cs).map (fun p => (.num (p.1 : Int), p.2))

mutual

/-- Fuelled recursive-descent parser for one JSON value. -/
def parseValue : Nat → List Char → Option (Json × List Char)
  | 0, _ => none
  | fuel + 1, cs =>
    match skipWs cs with
    | [] => none
    | '"' :: rest => (parseStringLit rest).map (fun p => (.str p.1, p.2))
    | '\x7b' :: rest =>
      match skipWs rest with
      | '\x7d' :: r2 => some (.obj .nil, r2)
      | cs2 => (parseMembers fuel cs2).map (fun p => (.obj p.1, p.2))
    | '[' :: rest =>
      match skipWs rest with
      | ']' :: r2 => some (.arr .nil, r2)
      | cs2 => (parseElems fuel cs2).map (fun p => (.arr p.1, p.2))
    | 't' :: rest =>
      (stripLit "rue".data rest).map (fun r2 => (.bool true, r2))
    | 'f' :: rest =>
      (stripLit "alse".data rest).map (fun r2 => (.bool false, r2))
    | 'n' :: rest =>
      (stripLit "ull".data rest).map (fun r2 => (.null, r2))
    | cs2 => parseNumber cs2

/-- Parse the nonempty member list of a JSON object up to and including the
closing brace. -/
def parseMembers : Nat → List Char → Option (JObj × List Char)
  | 0, _ => none
  | fuel + 1, cs =>
    match skipWs cs with
    | '"' :: rest =>
      match parseStringLit rest with
      | none => none
      | some (k, r1) =>
        match skipWs r1 with
        | ':' :: r2 =>
          match parseValue fuel r2 with
          | none => none
          | some (v, r3) =>
            match skipWs r3 with
            | ',' :: r4 => (parseMembers fuel r4).map (fun p => (.cons k v p.1, p.2))
            | '\x7d' :: r4 => some (.cons k v .nil, r4)
            | _ => none
        | _ => none
    | _ => none

/-- Parse the nonempty element list of a JSON array up to and including the
closing bracket. -/
def parseElems : Nat → List Char → Option (JArr × List Char)
  | 0, _ => none
  | fuel + 1, cs =>
    match parseValue fuel cs with
    | none => none
    | some (v, r1) =>
      match skipWs r1 with
      | ',' :: r2 => (parseElems fuel r2).map (fun p => (.cons v p.1, p.2))
      | ']' :: r2 => some (.cons v .nil, r2)
      | _ => none

end

/-- Python `json.loads`: a `ValueError`/`JSONDecodeError` is raised on any
parse failure or trailing data. The fuel bound exceeds any possible nesting
depth of the input. -/
def jsonLoads (s : String) : Except PyErr Json :=
  match parseValue (s.length + 1) s.data with
  | some (v, rest) => if skipWs rest = [] then .ok v else .error .jsonDecodeError
  | none => .error .jsonDecodeError

/-- The API-Gateway-style invocation event passed to `lambda_handler`:
`event.get("headers")`, `event.get("body")` and the
`event.get("isBase64Encoded")` flag. -/
structure LambdaEvent where
  headers : Option (List (String × String))
  body : Option String
  isBase64Encoded : Bool

/-- The HTTP-style response dict the handler returns. -/
structure Response where
  statusCode : Nat
  headers : Option (List (String × String)) := none
  body : String
deriving DecidableEq

/-- The handler local `headers = event.get("headers") or \x7b\x7d`. -/
def eventHeaders (event : LambdaEvent) : List (String × String) :=
  event.headers.getD []

/-- The handler local `raw_body = event.get("body") or ""`. -/
def eventRawBody (event : LambdaEvent) : String :=
  event.body.getD ""

/-- Embeds `lambda_handler` (source lines 183-249). The result carries the
response, the updated warm caches, and the list of messages sent to SQS
(queue URL and payload) during the invocation; a raised exception is an
`Except.error`. Statements the source executes only for logging (`print`)
have no effect in the model. -/
def lambda_handler (w : World) (st : Caches) (event : LambdaEvent) :
    Except PyErr (Response × Caches × List (String × Json)) :=
  if event.isBase64Encoded then
    .ok (⟨400, none, "base64 not supported"⟩, st, [])
  else
    match _verify_slack_signature w (eventHeaders event) (eventRawBody event) with
    | .error e => .error e
    | .ok (vok, reason) =>
      if vok = false then
        .ok (⟨401, some [("Content-Type", "application/json")],
              jsonDumps (.obj (jobj [("error", .str "unauthorized"),
                                     ("reason", .str reason)]))⟩, st, [])
      else
        match (if eventRawBody event = "" then Except.ok (Json.obj .nil)
               else jsonLoads (eventRawBody event)) with
        | .error e => .error e
        | .ok body =>
          match pyGet body "type" with
          | .error e => .error e
          | .ok btype =>
            if pyEq btype (.str "url_verification") then
              match pyGet body "challenge" with
              | .error e => .error e
              | .ok challenge =>
                .ok (⟨200, some [("Content-Type", "application/json")],
                      jsonDumps (.obj (jobj [("challenge", challenge)]))⟩, st, [])
            else if ¬ pyEq btype (.str "event_callback") then
              .ok (⟨200, none, "ok"⟩, st, [])
            else
              match pyGetD body "event" (.obj .nil) with
              | .error e => .error e
              | .ok ev =>
                match pyGet ev "type" with
                | .error e => .error e
                | .ok evType =>
                  if ¬ pyEq evType (.str "message") then
                    .ok (⟨200, none, "ignored"⟩, st, [])
                  else
                    match pyGet ev "subtype" with
                    | .error e => .error e
                    | .ok sub =>
                      if pyTruthy sub then .ok (⟨200, none, "ignored"⟩, st, [])
                      else
                        match pyIn (.str "bot_id") ev with
                        | .error e => .error e
                        | .ok hasBot =>
                          if hasBot then .ok (⟨200, none, "ignored"⟩, st, [])
                          else
                            match (match dictGet w.env "ALLOWED_CHANNEL_ID" with
                                   | none => Except.ok false
                                   | some a =>
                                     if a = "" then Except.ok false
                                     else
                                       match pyGet ev "channel" with
                                       | .error e => Except.error e
                                       | .ok chv => Except.ok (¬ pyEq chv (.str a))) with
                            | .error e => .error e
                            | .ok ignoreByChannel =>
                              if ignoreByChannel then .ok (⟨200, none, "ignored"⟩, st, [])
                              else
                                match _build_direct_message_payload w st body with
                                | .error e => .error e
                                | .ok (msg, st') =>
                                  match dictGet w.env "SQS_URL" with
                                  | none => .error (.keyError "SQS_URL")
                                  | some queue_url =>
                                    match pySubscript body "event" with
                                    | .error e => .error e
                                    | .ok evSub =>
                                      match pySubscript evSub "text" with
                                      | .error e => .error e
                                      | .ok textVal =>
                                        match pyIn (.str "prio1") textVal with
                                        | .error e => .error e
                                        | .ok hasKeyword =>
                                          if ¬ hasKeyword then
                                            .ok (⟨200, none, "ok"⟩, st', [])
                                          else
                                            match w.sqsSend queue_url msg with
                                            | .error e => .error (.sinkError e)
                                            | .ok _ =>
                                              .ok (⟨200, none, "ok"⟩, st',
                                                   [(queue_url, msg)])

/-- Total dict access helper for stating properties of already-built JSON
values: the stored value of `k` when `j` is a dict holding it, else `d`. -/
def jGetD (j : Json) (k : String) (d : Json) : Json :=
  match j with
  | .obj kvs => (kvs.lookupKey k).getD d
  | _ => d

/-- The event-id computation of `_build_direct_message_payload` (source
lines 149-159) as a function of the parsed body alone:
`event_id = slack_body.get("event_id") or f"\x7bchannel_id\x7d-\x7bts\x7d"`
with `channel_id`/`ts` read from the inner event with their `.get`
defaults. -/
def eventIdOf (body : Json) : Json :=
  let ev := jGetD body "event" (.obj .nil)
  let channel_id := jGetD ev "channel" (.str "unknown")
  let ts := jGetD ev "ts" (.str "no-ts")
  let event_id_raw := jGetD body "event_id" .null
  if pyTruthy event_id_raw then event_id_raw
  else .str (pyStr channel_id ++ "-" ++ pyStr ts)

/-- Case-insensitive absence of a header name from the header dict. -/
def ciAbsent (headers : List (String × String)) (name : String) : Prop :=
  ∀ kv ∈ headers, lowerString kv.1 ≠ lowerString name

/-- The channel allow-list check of source lines 224-226 passes (i.e. does
not divert to the "ignored" response): `ALLOWED_CHANNEL_ID` is unset or
falsy, or the event's channel equals it. -/
def allowPass (w : World) (evF : JObj) : Prop :=
  match dictGet w.env "ALLOWED_CHANNEL_ID" with
  | none => True
  | some a => a = "" ∨ pyEq ((evF.lookupKey "channel").getD .null) (.str a) = true

/-- Failure of a `conversations.info` lookup as the source detects it: a
raised exception (network error, timeout, malformed body, missing token) or
a response that is not a dict with a truthy `"ok"` and a dict `"channel"`. -/
def channelInfoFailed : Except String Json → Bool := fun resp =>
  match resp with
  | .error _ => true
  | .ok data =>
    match data with
    | .obj fields =>
      if pyTruthy ((fields.lookupKey "ok").getD .null) then
        match (fields.lookupKey "channel").getD .null with
        | .obj _ => false
        | _ => true
      else true
    | _ => true

/-- Failure of a `users.info` lookup, mirroring `channelInfoFailed`. -/
def userInfoFailed : Except String Json → Bool := fun resp =>
  match resp with
  | .error _ => true
  | .ok data =>
    match data with
    | .obj fields =>
      if pyTruthy ((fields.lookupKey "ok").getD .null) then
        match (fields.lookupKey "user").getD .null with
        | .obj _ => false
        | _ => true
      else true
    | _ => true

/-! ## Shared concrete instances used by witnesses and counterexamples -/

/-- A concrete stand-in for the abstract HMAC-SHA256 hex-digest primitive,
injective in its message argument, used to instantiate witnesses. -/
def hmac0 : String → String → String :=
  fun secret msg => "h(" ++ secret ++ "|" ++ msg ++ ")"

/-- A concrete world: signing secret and queue configured, no bot token and a
failing Slack API (every lookup raises), an always-successful SQS client,
clock at 1700000000. -/
def w0 : World :=
  { hmacSha256Hex := hmac0
    slackApi := fun _ _ => .error "timeout"
    sqsSend := fun _ _ => .ok ()
    env := [("SLACK_SIGNING_SECRET", "sec"), ("SQS_URL", "q")]
    now := 1700000000 }

/-- Produce headers carrying the timestamp `"1700000000"` and the matching
signature for `raw` under `hmac0` and the secret `"sec"` of `w0`. -/
def mkHdrs (raw : String) : List (String × String) :=
  [("X-Slack-Request-Timestamp", "1700000000"),
   ("X-Slack-Signature", "v0=" ++ hmac0 "sec" ("v0:1700000000:" ++ raw))]

/-- Concrete headers carrying a fresh timestamp and the matching signature
over the body `"hello"` under `hmac0` and the secret of `w0`. -/
def hdrs1 : List (String × String) := mkHdrs "hello"

/-- Concrete headers with a timestamp 301 seconds before the clock of `w0`. -/
def hdrs2 : List (String × String) :=
  [("X-Slack-Request-Timestamp", "1699999699"), ("X-Slack-Signature", "v0=zz")]

/-- The raw request body of the end-to-end scenario. -/
def rawBodyC3 : String :=
  "\x7b\"type\":\"event_callback\",\"event\":\x7b\"type\":\"message\",\"channel\":\"C1\",\"user\":\"U1\",\"text\":\"prio1 outage\",\"ts\":\"1.1\"\x7d\x7d"

/-- The payload the end-to-end scenario enqueues. -/
def msgC3 : Json :=
  .obj (jobj [
    ("direct_message", .bool true),
    ("subject", .str "Slack message in C1 from U1"),
    ("message", .str "Channel: C1\nUser: U1\n\nprio1 outage"),
    ("alias", .str "slack-C1-1.1"),
    ("client_name", .str "CustomerSlackChannel"),
    ("sla", .str "24x7"),
    ("account_id", .str "C1"),
    ("account_name", .str "C1"),
    ("priority", .str "P1")])

/-- A parsed body carrying a present but empty top-level `event_id`. -/
def bodyC7 : Json :=
  .obj (jobj [("event_id", .str ""),
              ("event", .obj (jobj [("channel", .str "C1"), ("ts", .str "1.1")]))])

/-- The payload built from `bodyC7` against `w0` (both lookups fail). -/
def msgC7 : Json :=
  .obj (jobj [
    ("direct_message", .bool true),
    ("subject", .str "Slack message in C1 from unknown"),
    ("message", .str "Channel: C1\nUser: unknown\n\n"),
    ("alias", .str "slack-C1-1.1"),
    ("client_name", .str "CustomerSlackChannel"),
    ("sla", .str "24x7"),
    ("account_id", .str "C1"),
    ("account_name", .str "C1"),
    ("priority", .str "P1")])

/-- A raw request body whose message text lacks the required keyword. -/
def rawBodyC8 : String :=
  "\x7b\"type\":\"event_callback\",\"event\":\x7b\"type\":\"message\",\"channel\":\"C1\",\"user\":\"U1\",\"text\":\"hello world\",\"ts\":\"1.1\"\x7d\x7d"

/-- A raw request body whose inner message event has no `"text"` field. -/
def rawBodyC10 : String :=
  "\x7b\"type\":\"event_callback\",\"event\":\x7b\"type\":\"message\",\"channel\":\"C1\",\"user\":\"U1\",\"ts\":\"1.1\"\x7d\x7d"

/-- The parsed inner event of `rawBodyC8`. -/
def evF8 : JObj :=
  jobj [("type", .str "message"), ("channel", .str "C1"), ("user", .str "U1"),
        ("text", .str "hello world"), ("ts", .str "1.1")]

/-- The parsed body of `rawBodyC8`. -/
def bodyF8 : JObj := jobj [("type", .str "event_callback"), ("event", .obj evF8)]

/-- The parsed inner event of `rawBodyC10` (no `"text"` field). -/
def evF10 : JObj :=
  jobj [("type", .str "message"), ("channel", .str "C1"), ("user", .str "U1"),
        ("ts", .str "1.1")]

/-- The parsed body of `rawBodyC10`. -/
def bodyF10 : JObj := jobj [("type", .str "event_callback"), ("event", .obj evF10)]

/-! ## Helper lemmas -/

theorem v0_append_ne_empty (s : String) : "v0=" ++ s ≠ "" := by
  intro h
  have h2 := congrArg String.data h
  simp [String.data_append] at h2

theorem v0_append_inj {a b : String} (h : "v0=" ++ a = "v0=" ++ b) : a = b := by
  have h2 := congrArg String.data h
  simp [String.data_append] at h2
  exact String.ext h2

theorem dictGet_eq_none (hs : List (String × String)) (key : String)
    (h : ∀ kv ∈ hs, kv.1 ≠ key) : dictGet hs key = none := by
  induction hs with
  | nil => rfl
  | cons kv rest ih =>
    have hk : kv.1 ≠ key := h kv (by simp)
    simp only [dictGet, if_neg hk]
    exact ih (fun kv2 hkv2 => h kv2 (by simp [hkv2]))

theorem asciiLower_idem (c : Char) : asciiLower (asciiLower c) = asciiLower c := by
  unfold asciiLower
  by_cases h : 65 ≤ c.toNat ∧ c.toNat ≤ 90
  · rw [if_pos h]
    have hv : (c.toNat + 32).isValidChar := Or.inl (by omega)
    have ht : (Char.ofNat (c.toNat + 32)).toNat = c.toNat + 32 := by
      simp [Char.ofNat, hv]
      rfl
    rw [if_neg (by rw [ht]; omega)]
  · rw [if_neg h, if_neg h]

theorem lowerString_idem (s : String) : lowerString (lowerString s) = lowerString s := by
  unfold lowerString
  simp only [List.map_map]
  congr 1
  exact List.map_congr_left (fun c _ => asciiLower_idem c)

theorem get_header_none (headers : List (String × String)) (name : String)
    (h : ciAbsent headers name) : _get_header headers name = none := by
  have h1 : dictGet headers name = none :=
    dictGet_eq_none _ _ (fun kv hkv heq => h kv hkv (by rw [heq]))
  have h2 : dictGet headers (lowerString name) = none :=
    dictGet_eq_none _ _ (fun kv hkv heq => h kv hkv (by rw [heq, lowerString_idem]))
  unfold _get_header
  rw [h1, h2]
  split <;> rfl

/-! ## C1 -/

/-- C1: for every request whose headers carry a timestamp within 300 seconds
of the clock and a signature equal to
`"v0=" + hex(HMAC-SHA256(secret, "v0:" + timestamp + ":" + rawBody))`,
`_verify_slack_signature` returns ok; mutating the raw body (so that the
recomputed digest differs, as any single-byte mutation does for a
collision-free digest) makes it return `signature_mismatch`, and replacing
the signature header by any other value makes it not return ok. -/
theorem C1_valid_signature_accepted_and_mutations_rejected
    (w : World) (headers : List (String × String)) (raw_body : String)
    (tsStr : String) (ts_int : Int) (secret : String)
    (hts : _get_header headers "X-Slack-Request-Timestamp" = some tsStr)
    (hts_ne : tsStr ≠ "")
    (hparse : pyInt? tsStr = some ts_int)
    (hwin : (w.now - ts_int).natAbs ≤ MAX_AGE_SECONDS)
    (hsecret : dictGet w.env "SLACK_SIGNING_SECRET" = some secret)
    (hsig : _get_header headers "X-Slack-Signature" =
      some ("v0=" ++ w.hmacSha256Hex secret ("v0:" ++ tsStr ++ ":" ++ raw_body))) :
    _verify_slack_signature w headers raw_body = .ok (true, "ok")
    ∧ (∀ body' : String,
        w.hmacSha256Hex secret ("v0:" ++ tsStr ++ ":" ++ body')
          ≠ w.hmacSha256Hex secret ("v0:" ++ tsStr ++ ":" ++ raw_body) →
        _verify_slack_signature w headers body' = .ok (false, "signature_mismatch"))
    ∧ (∀ (headers' : List (String × String)) (sig' : String),
        _get_header headers' "X-Slack-Request-Timestamp" = some tsStr →
        _get_header headers' "X-Slack-Signature" = some sig' →
        sig' ≠ "v0=" ++ w.hmacSha256Hex secret ("v0:" ++ tsStr ++ ":" ++ raw_body) →
        _verify_slack_signature w headers' raw_body ≠ .ok (true, "ok")) := by
  have hsigne : ("v0=" ++ w.hmacSha256Hex secret ("v0:" ++ tsStr ++ ":" ++ raw_body)) ≠ "" :=
    v0_append_ne_empty _
  have hwin' : ¬ (MAX_AGE_SECONDS < (w.now - ts_int).natAbs) := by omega
  refine ⟨?_, ?_, ?_⟩
  · unfold _verify_slack_signature
    rw [hts, hsig]
    simp [hts_ne, hsigne, hparse, hwin', hsecret]
  · intro body' hdiff
    have hne : ("v0=" ++ w.hmacSha256Hex secret ("v0:" ++ tsStr ++ ":" ++ body'))
        ≠ ("v0=" ++ w.hmacSha256Hex secret ("v0:" ++ tsStr ++ ":" ++ raw_body)) :=
      fun hc => hdiff (v0_append_inj hc)
    unfold _verify_slack_signature
    rw [hts, hsig]
    simp [hts_ne, hsigne, hparse, hwin', hsecret, hne]
  · intro headers' sig' hts' hsig' hne
    unfold _verify_slack_signature
    rw [hts', hsig']
    by_cases hempty : sig' = ""
    · subst hempty
      simp
    · have hne2 : ("v0=" ++ w.hmacSha256Hex secret ("v0:" ++ tsStr ++ ":" ++ raw_body)) ≠ sig' :=
        fun hc => hne hc.symm
      simp [hts_ne, hempty, hparse, hwin', hsecret, hne2]

/-- Witness for C1 at a concrete world, header set and body. -/
theorem C1_witness :
    _get_header hdrs1 "X-Slack-Request-Timestamp" = some "1700000000"
    ∧ ("1700000000" : String) ≠ ""
    ∧ pyInt? "1700000000" = some 1700000000
    ∧ (w0.now - 1700000000).natAbs ≤ MAX_AGE_SECONDS
    ∧ dictGet w0.env "SLACK_SIGNING_SECRET" = some "sec"
    ∧ _get_header hdrs1 "X-Slack-Signature" =
        some ("v0=" ++ w0.hmacSha256Hex "sec" ("v0:" ++ "1700000000" ++ ":" ++ "hello"))
    ∧ _verify_slack_signature w0 hdrs1 "hello" = .ok (true, "ok") :=
  ⟨rfl, by decide, rfl, by decide, rfl, rfl,
   (C1_valid_signature_accepted_and_mutations_rejected w0 hdrs1 "hello" "1700000000"
      1700000000 "sec" rfl (by decide) rfl (by decide) rfl rfl).1⟩

/-! ## C2 -/

/-- C2: with both headers present and the timestamp parsing as an integer
more than 300 seconds from the clock in either direction, verification fails
with `timestamp_out_of_range` whatever the signature value is (in
particular, even for the correct HMAC); at exactly 300 seconds this check
does not fire. -/
theorem C2_replay_window
    (w : World) (headers : List (String × String)) (raw_body : String)
    (tsStr sigStr : String) (ts_int : Int)
    (hts : _get_header headers "X-Slack-Request-Timestamp" = some tsStr)
    (hts_ne : tsStr ≠ "")
    (hsig : _get_header headers "X-Slack-Signature" = some sigStr)
    (hsig_ne : sigStr ≠ "")
    (hparse : pyInt? tsStr = some ts_int) :
    (MAX_AGE_SECONDS < (w.now - ts_int).natAbs →
      _verify_slack_signature w headers raw_body = .ok (false, "timestamp_out_of_range"))
    ∧ ((w.now - ts_int).natAbs = MAX_AGE_SECONDS →
      _verify_slack_signature w headers raw_body ≠ .ok (false, "timestamp_out_of_range")) := by
  constructor
  · intro hfar
    unfold _verify_slack_signature
    rw [hts, hsig]
    simp [hts_ne, hsig_ne, hparse, hfar]
  · intro hedge
    have hwin' : ¬ (MAX_AGE_SECONDS < (w.now - ts_int).natAbs) := by omega
    unfold _verify_slack_signature
    rw [hts, hsig]
    simp only [hts_ne, hsig_ne, hparse, hwin', or_self, if_neg, ite_false]
    simp [hts_ne, hsig_ne]
    cases hsec : dictGet w.env "SLACK_SIGNING_SECRET" with
    | none => simp
    | some secret =>
      simp only []
      split <;> simp

/-- Witness for C2: a timestamp 301 seconds stale is rejected as out of
range. -/
theorem C2_witness :
    _get_header hdrs2 "X-Slack-Request-Timestamp" = some "1699999699"
    ∧ ("1699999699" : String) ≠ ""
    ∧ _get_header hdrs2 "X-Slack-Signature" = some "v0=zz"
    ∧ ("v0=zz" : String) ≠ ""
    ∧ pyInt? "1699999699" = some 1699999699
    ∧ MAX_AGE_SECONDS < (w0.now - 1699999699).natAbs
    ∧ _verify_slack_signature w0 hdrs2 "hello" = .ok (false, "timestamp_out_of_range") :=
  ⟨rfl, by decide, rfl, by decide, rfl, by decide,
   (C2_replay_window w0 hdrs2 "hello" "1699999699" "v0=zz" 1699999699
      rfl (by decide) rfl (by decide) rfl).1 (by decide)⟩

/-! ## C9 -/

/-- C9 counterexample: on a request with no headers at all, verification
fails, but the reason code the source returns is the literal
`"missing_slack_headers"`, not `"missing_headers"` as the claim states. -/
theorem C9_counterexample :
    _verify_slack_signature w0 [] "x" = .ok (false, "missing_slack_headers")
    ∧ ("missing_slack_headers" : String) ≠ "missing_headers" :=
  ⟨rfl, by decide⟩

/-- C9 (amended): for every request whose headers lack the timestamp header
or the signature header under case-insensitive lookup, verification fails
and its reason code is `missing_slack_headers`. -/
theorem C9_missing_headers_rejected
    (w : World) (headers : List (String × String)) (raw_body : String)
    (habsent : ciAbsent headers "X-Slack-Request-Timestamp"
             ∨ ciAbsent headers "X-Slack-Signature") :
    _verify_slack_signature w headers raw_body = .ok (false, "missing_slack_headers") := by
  unfold _verify_slack_signature
  rcases habsent with h | h
  · rw [get_header_none _ _ h]
  · rw [get_header_none _ _ h]
    split <;> first | rfl | simp_all

/-- Witness for C9 (amended): headers holding only a content-type entry lack
both Slack headers, and verification reports `missing_slack_headers`. -/
theorem C9_witness :
    ciAbsent [("Content-Type", "application/json")] "X-Slack-Request-Timestamp"
    ∧ _verify_slack_signature w0 [("Content-Type", "application/json")] "x"
        = .ok (false, "missing_slack_headers") :=
  have h : ciAbsent [("Content-Type", "application/json")] "X-Slack-Request-Timestamp" := by
    intro kv hkv
    simp only [List.mem_singleton] at hkv
    subst hkv
    intro hc
    have := congrArg String.data hc
    simp [lowerString] at this
  ⟨h, C9_missing_headers_rejected w0 _ "x" (Or.inl h)⟩

/-! ## C4 -/

/-- C4: the resolvers are memoizing. An empty identifier resolves to the
literal `"unknown"` with no external call and no cache entry; a non-empty
identifier makes at most one external lookup call, after which the result is
in the cache and every later resolution of the same identifier returns the
same value from the cache with no further call. -/
theorem C4_resolvers_memoize :
    (∀ (w : World) (cache : List (Json × Json)),
        get_channel_name w cache (.str "") = .ok (.str "unknown", cache, 0)
        ∧ get_user_name w cache (.str "") = .ok (.str "unknown", cache, 0))
    ∧ (∀ (w : World) (cache : List (Json × Json)) (cid : String), cid ≠ "" →
        ∀ name cache' calls,
          get_channel_name w cache (.str cid) = .ok (name, cache', calls) →
          calls ≤ 1 ∧ get_channel_name w cache' (.str cid) = .ok (name, cache', 0))
    ∧ (∀ (w : World) (cache : List (Json × Json)) (uid : String), uid ≠ "" →
        ∀ name cache' calls,
          get_user_name w cache (.str uid) = .ok (name, cache', calls) →
          calls ≤ 1 ∧ get_user_name w cache' (.str uid) = .ok (name, cache', 0)) := by
  refine ⟨fun w cache => ⟨rfl, rfl⟩, ?_, ?_⟩
  · intro w cache cid hcid name cache' calls h
    have htr : pyTruthy (.str cid) = true := by simp [pyTruthy, hcid]
    simp only [get_channel_name, htr, not_true_eq_false, if_false, isUnhashable,
      Bool.false_eq_true, if_true] at h ⊢
    cases hl : cacheLookup cache (.str cid) with
    | some v =>
      rw [hl] at h
      cases h
      rw [hl]
      exact ⟨by omega, rfl⟩
    | none =>
      rw [hl] at h
      cases h
      have hself : pyEq (Json.str cid) (Json.str cid) = true := by simp [pyEq]
      simp [cacheLookup, hself]
  · intro w cache uid huid name cache' calls h
    have htr : pyTruthy (.str uid) = true := by simp [pyTruthy, huid]
    simp only [get_user_name, htr, not_true_eq_false, if_false, isUnhashable,
      Bool.false_eq_true, if_true] at h ⊢
    cases hl : cacheLookup cache (.str uid) with
    | some v =>
      rw [hl] at h
      cases h
      rw [hl]
      exact ⟨by omega, rfl⟩
    | none =>
      rw [hl] at h
      cases h
      have hself : pyEq (Json.str uid) (Json.str uid) = true := by simp [pyEq]
      simp [cacheLookup, hself]

set_option maxRecDepth 4000 in
/-- Witness for C4: resolving `"C1"` against `w0` (whose lookup fails) makes
one call and populates the cache; the second resolution is a cache hit. -/
theorem C4_witness :
    ("C1" : String) ≠ ""
    ∧ get_channel_name w0 [] (.str "C1") = .ok (.str "C1", [(.str "C1", .str "C1")], 1)
    ∧ (1 ≤ 1 ∧ get_channel_name w0 [(.str "C1", .str "C1")] (.str "C1")
          = .ok (.str "C1", [(.str "C1", .str "C1")], 0)) :=
  ⟨by decide, by rfl,
   C4_resolvers_memoize.2.1 w0 [] "C1" (by decide)
     (.str "C1") [(.str "C1", .str "C1")] 1 (by rfl)⟩

/-! ## C5 -/

/-- C5: when the external lookup for a non-empty, uncached identifier fails
in any way (raised exception or a not-ok/malformed response), the resolver
returns the identifier itself, caches it, and the next resolution of the
same identifier returns it from the cache without another call. -/
theorem C5_lookup_failure_falls_back_and_caches
    (w : World) (chCache uCache : List (Json × Json)) (cid uid : String)
    (hcid : cid ≠ "") (huid : uid ≠ "")
    (hchmiss : cacheLookup chCache (.str cid) = none)
    (humiss : cacheLookup uCache (.str uid) = none)
    (hchfail : channelInfoFailed
      (_slack_api_get w "conversations.info" [("channel", .str cid)]) = true)
    (hufail : userInfoFailed
      (_slack_api_get w "users.info" [("user", .str uid)]) = true) :
    (get_channel_name w chCache (.str cid)
        = .ok (.str cid, (.str cid, .str cid) :: chCache, 1)
     ∧ get_channel_name w ((.str cid, .str cid) :: chCache) (.str cid)
        = .ok (.str cid, (.str cid, .str cid) :: chCache, 0))
    ∧ (get_user_name w uCache (.str uid)
        = .ok (.str uid, (.str uid, .str uid) :: uCache, 1)
       ∧ get_user_name w ((.str uid, .str uid) :: uCache) (.str uid)
        = .ok (.str uid, (.str uid, .str uid) :: uCache, 0)) := by
  have htrc : pyTruthy (.str cid) = true := by simp [pyTruthy, hcid]
  have htru : pyTruthy (.str uid) = true := by simp [pyTruthy, huid]
  have hselfc : pyEq (Json.str cid) (Json.str cid) = true := by simp [pyEq]
  have hselfu : pyEq (Json.str uid) (Json.str uid) = true := by simp [pyEq]
  refine ⟨⟨?_, ?_⟩, ?_, ?_⟩
  · simp only [get_channel_name, htrc, not_true_eq_false, if_false, isUnhashable,
      Bool.false_eq_true, if_true, hchmiss]
    cases hapi : _slack_api_get w "conversations.info" [("channel", .str cid)] with
    | error e => rfl
    | ok data =>
      rw [hapi] at hchfail
      cases data with
      | obj fields =>
        simp only [channelInfoFailed] at hchfail
        cases hok : pyTruthy ((fields.lookupKey "ok").getD .null) with
        | false => simp [hok]
        | true =>
          rw [hok] at hchfail
          simp only [if_true] at hchfail
          cases hch : (fields.lookupKey "channel").getD .null <;>
            simp_all [channelInfoFailed]
      | null => rfl
      | bool b => rfl
      | num n => rfl
      | str s => rfl
      | arr xs => rfl
  · simp [get_channel_name, htrc, isUnhashable, cacheLookup, hselfc]
  · simp only [get_user_name, htru, not_true_eq_false, if_false, isUnhashable,
      Bool.false_eq_true, if_true, humiss]
    cases hapi : _slack_api_get w "users.info" [("user", .str uid)] with
    | error e => rfl
    | ok data =>
      rw [hapi] at hufail
      cases data with
      | obj fields =>
        simp only [userInfoFailed] at hufail
        cases hok : pyTruthy ((fields.lookupKey "ok").getD .null) with
        | false => simp [hok]
        | true =>
          rw [hok] at hufail
          simp only [if_true] at hufail
          cases hch : (fields.lookupKey "user").getD .null <;>
            simp_all [userInfoFailed]
      | null => rfl
      | bool b => rfl
      | num n => rfl
      | str s => rfl
      | arr xs => rfl
  · simp [get_user_name, htru, isUnhashable, cacheLookup, hselfu]

set_option maxRecDepth 4000 in
/-- Witness for C5: against `w0` every lookup raises (missing bot token), so
resolving the uncached `"C7x"` and `"U7x"` falls back to the identifiers,
caches them, and the repeat resolutions are cache hits. -/
theorem C5_witness :
    ("C7x" : String) ≠ "" ∧ ("U7x" : String) ≠ ""
    ∧ cacheLookup [] (.str "C7x") = none ∧ cacheLookup [] (.str "U7x") = none
    ∧ channelInfoFailed
        (_slack_api_get w0 "conversations.info" [("channel", .str "C7x")]) = true
    ∧ userInfoFailed (_slack_api_get w0 "users.info" [("user", .str "U7x")]) = true
    ∧ ((get_channel_name w0 [] (.str "C7x")
          = .ok (.str "C7x", [(.str "C7x", .str "C7x")], 1)
        ∧ get_channel_name w0 [(.str "C7x", .str "C7x")] (.str "C7x")
          = .ok (.str "C7x", [(.str "C7x", .str "C7x")], 0))
       ∧ (get_user_name w0 [] (.str "U7x")
            = .ok (.str "U7x", [(.str "U7x", .str "U7x")], 1)
          ∧ get_user_name w0 [(.str "U7x", .str "U7x")] (.str "U7x")
            = .ok (.str "U7x", [(.str "U7x", .str "U7x")], 0))) :=
  ⟨by decide, by decide, rfl, rfl, rfl, rfl,
   C5_lookup_failure_falls_back_and_caches w0 [] [] "C7x" "U7x"
     (by decide) (by decide) rfl rfl rfl rfl⟩

/-! ## C3 -/

set_option maxRecDepth 200000 in
/-- C3: for the concrete request with a valid signature over
`ts = 1700000000` and the event-callback body with channel `C1`, user `U1`,
text `"prio1 outage"` and ts `"1.1"`, with the clock at 1700000000, no
allow-list configured and both name lookups failing, the handler returns
status 200 and enqueues exactly one message whose `alias` is
`"slack-C1-1.1"`, `account_id` is `"C1"` and `account_name` is `"C1"`. -/
theorem C3_end_to_end :
    lambda_handler w0 ⟨[], []⟩ ⟨some (mkHdrs rawBodyC3), some rawBodyC3, false⟩ =
      .ok (⟨200, none, "ok"⟩,
           ⟨[(.str "C1", .str "C1")], [(.str "U1", .str "U1")]⟩,
           [("q", msgC3)])
    ∧ jGetD msgC3 "alias" .null = .str "slack-C1-1.1"
    ∧ jGetD msgC3 "account_id" .null = .str "C1"
    ∧ jGetD msgC3 "account_name" .null = .str "C1" :=
  ⟨by rfl, by rfl, by rfl, by rfl⟩

/-! ## C7 -/

theorem build_alias_formula (w : World) (st : Caches) (body msg : Json) (st' : Caches)
    (h : _build_direct_message_payload w st body = .ok (msg, st')) :
    jGetD msg "alias" .null = .str ("slack-" ++ pyStr (eventIdOf body)) := by
  cases body with
  | null => simp [_build_direct_message_payload, pyGetD] at h
  | bool b => simp [_build_direct_message_payload, pyGetD] at h
  | num n => simp [_build_direct_message_payload, pyGetD] at h
  | str s => simp [_build_direct_message_payload, pyGetD] at h
  | arr xs => simp [_build_direct_message_payload, pyGetD] at h
  | obj bodyF =>
    simp only [_build_direct_message_payload, pyGetD, pyGet] at h
    cases hevs : (bodyF.lookupKey "event").getD (.obj .nil) with
    | obj evF =>
      rw [hevs] at h
      simp only [pyGetD, pyGet] at h
      split at h
      · exact Except.noConfusion h
      · split at h
        · exact Except.noConfusion h
        · simp only [Except.ok.injEq, Prod.mk.injEq] at h
          obtain ⟨hmsg, -⟩ := h
          subst hmsg
          simp only [eventIdOf, jGetD, hevs, jobj, JObj.lookupKey]
          simp
    | null => rw [hevs] at h; simp [pyGetD] at h
    | bool b => rw [hevs] at h; simp [pyGetD] at h
    | num n => rw [hevs] at h; simp [pyGetD] at h
    | str s => rw [hevs] at h; simp [pyGetD] at h
    | arr xs => rw [hevs] at h; simp [pyGetD] at h

set_option maxRecDepth 40000 in
/-- C7 counterexample: `bodyC7` carries a present but empty top-level
`event_id`; the claim as stated then predicts alias
`"slack-" + eventId = "slack-"`, but the source treats the falsy `event_id`
as absent and produces `"slack-C1-1.1"` from the channel/timestamp
fallback. -/
theorem C7_counterexample :
    jGetD bodyC7 "event_id" .null = .str ""
    ∧ _build_direct_message_payload w0 ⟨[], []⟩ bodyC7 =
        .ok (msgC7, ⟨[(.str "C1", .str "C1")], [(.str "unknown", .str "unknown")]⟩)
    ∧ jGetD msgC7 "alias" .null = .str "slack-C1-1.1"
    ∧ Json.str "slack-C1-1.1"
        ≠ .str ("slack-" ++ pyStr (jGetD bodyC7 "event_id" .null)) :=
  ⟨by rfl, by rfl, by rfl, by
    intro hcontra
    injection hcontra with h
    exact absurd h (by decide)⟩

/-- C7 (amended): the payload's alias equals `"slack-" + eventId` where
eventId is the body's top-level event identifier when present and truthy
(non-empty), and otherwise the string `"\x7bchannelId\x7d-\x7btimestamp\x7d"`;
hence two builds whose inputs agree on that event-id computation produce
identical aliases. -/
theorem C7_alias_deterministic
    (w : World) (st : Caches) (body msg : Json) (st' : Caches)
    (h : _build_direct_message_payload w st body = .ok (msg, st')) :
    jGetD msg "alias" .null = .str ("slack-" ++ pyStr (eventIdOf body))
    ∧ ∀ (w2 : World) (st2 : Caches) (body2 msg2 : Json) (st2' : Caches),
        _build_direct_message_payload w2 st2 body2 = .ok (msg2, st2') →
        eventIdOf body2 = eventIdOf body →
        jGetD msg2 "alias" .null = jGetD msg "alias" .null := by
  refine ⟨build_alias_formula w st body msg st' h, ?_⟩
  intro w2 st2 body2 msg2 st2' h2 heq
  rw [build_alias_formula w2 st2 body2 msg2 st2' h2,
      build_alias_formula w st body msg st' h, heq]

set_option maxRecDepth 40000 in
/-- Witness for C7 at the concrete `bodyC7` built against `w0`. -/
theorem C7_witness :
    _build_direct_message_payload w0 ⟨[], []⟩ bodyC7 =
      .ok (msgC7, ⟨[(.str "C1", .str "C1")], [(.str "unknown", .str "unknown")]⟩)
    ∧ jGetD msgC7 "alias" .null = .str ("slack-" ++ pyStr (eventIdOf bodyC7)) :=
  ⟨by rfl,
   (C7_alias_deterministic w0 ⟨[], []⟩ bodyC7 msgC7
      ⟨[(.str "C1", .str "C1")], [(.str "unknown", .str "unknown")]⟩ (by rfl)).1⟩

/-! ## C6 -/

/-- C6 counterexample: a base64-encoded request is answered with status 400,
which is neither a 200 success nor a 401 authentication failure, and no sink
failure is involved (the sink of `w0` always succeeds and nothing is
enqueued). -/
theorem C6_counterexample :
    lambda_handler w0 ⟨[], []⟩ ⟨some [], some "x", true⟩ =
      .ok (⟨400, none, "base64 not supported"⟩, ⟨[], []⟩, [])
    ∧ (400 : Nat) ≠ 200 ∧ (400 : Nat) ≠ 401 :=
  ⟨by rfl, by decide, by decide⟩

/-- C6 (amended): whenever the handler returns a response at all (rather
than raising an exception), a non-200 status arises only from an
authentication failure (status 401, the verifier having reported a failure)
or from a base64-encoded body (status 400); sink failures and malformed
bodies escape as exceptions rather than responses. -/
theorem C6_non_success_only_auth_or_base64
    (w : World) (st : Caches) (event : LambdaEvent)
    (resp : Response) (st' : Caches) (sent : List (String × Json))
    (h : lambda_handler w st event = .ok (resp, st', sent)) :
    resp.statusCode = 200
    ∨ (resp.statusCode = 401
        ∧ ∃ reason, _verify_slack_signature w (eventHeaders event) (eventRawBody event)
            = .ok (false, reason))
    ∨ (resp.statusCode = 400 ∧ event.isBase64Encoded = true) := by
  unfold lambda_handler at h
  split at h
  · rename_i hb64
    simp only [Except.ok.injEq, Prod.mk.injEq] at h
    obtain ⟨h1, -, -⟩ := h
    rw [← h1]
    exact Or.inr (Or.inr ⟨rfl, hb64⟩)
  · split at h
    · exact Except.noConfusion h
    · rename_i vok reason heqv
      split at h
      · rename_i hvok
        simp only [Except.ok.injEq, Prod.mk.injEq] at h
        obtain ⟨h1, -, -⟩ := h
        rw [← h1]
        refine Or.inr (Or.inl ⟨rfl, reason, ?_⟩)
        rw [hvok] at heqv
        exact heqv
      · repeat' split at h
        all_goals try exact Except.noConfusion h
        all_goals simp only [Except.ok.injEq, Prod.mk.injEq] at h
        all_goals obtain ⟨h1, -, -⟩ := h
        all_goals rw [← h1]
        all_goals exact Or.inl rfl

/-- Witness for C6 (amended): a plain non-base64 request with no headers is
judged by the amended statement; it in fact returns 401. -/
theorem C6_witness :
    lambda_handler w0 ⟨[], []⟩ ⟨some [], some "x", false⟩ =
      .ok (⟨401, some [("Content-Type", "application/json")],
            jsonDumps (.obj (jobj [("error", .str "unauthorized"),
                                   ("reason", .str "missing_slack_headers")]))⟩,
           ⟨[], []⟩, [])
    ∧ ((⟨401, some [("Content-Type", "application/json")],
          jsonDumps (.obj (jobj [("error", .str "unauthorized"),
                                 ("reason", .str "missing_slack_headers")]))⟩ : Response).statusCode = 200
       ∨ ((⟨401, some [("Content-Type", "application/json")],
             jsonDumps (.obj (jobj [("error", .str "unauthorized"),
                                    ("reason", .str "missing_slack_headers")]))⟩ : Response).statusCode = 401
           ∧ ∃ reason, _verify_slack_signature w0
               (eventHeaders ⟨some [], some "x", false⟩)
               (eventRawBody ⟨some [], some "x", false⟩) = .ok (false, reason))
       ∨ ((⟨401, some [("Content-Type", "application/json")],
             jsonDumps (.obj (jobj [("error", .str "unauthorized"),
                                    ("reason", .str "missing_slack_headers")]))⟩ : Response).statusCode = 400
           ∧ (⟨some [], some "x", false⟩ : LambdaEvent).isBase64Encoded = true)) :=
  ⟨by rfl,
   C6_non_success_only_auth_or_base64 w0 ⟨[], []⟩ ⟨some [], some "x", false⟩
     _ ⟨[], []⟩ [] (by rfl)⟩

/-! ## C8 and C10: helper lemmas about the filtered path -/

theorem get_channel_name_str_ok (w : World) (cache : List (Json × Json)) (c : String) :
    ∃ r, get_channel_name w cache (.str c) = .ok r := by
  by_cases hc : c = ""
  · subst hc
    exact ⟨_, rfl⟩
  · have htr : pyTruthy (.str c) = true := by simp [pyTruthy, hc]
    simp only [get_channel_name, htr, not_true_eq_false, if_false, isUnhashable,
      Bool.false_eq_true, if_true]
    cases hl : cacheLookup cache (.str c) with
    | some v => exact ⟨_, rfl⟩
    | none => exact ⟨_, rfl⟩

theorem get_user_name_str_ok (w : World) (cache : List (Json × Json)) (u : String) :
    ∃ r, get_user_name w cache (.str u) = .ok r := by
  by_cases hu : u = ""
  · subst hu
    exact ⟨_, rfl⟩
  · have htr : pyTruthy (.str u) = true := by simp [pyTruthy, hu]
    simp only [get_user_name, htr, not_true_eq_false, if_false, isUnhashable,
      Bool.false_eq_true, if_true]
    cases hl : cacheLookup cache (.str u) with
    | some v => exact ⟨_, rfl⟩
    | none => exact ⟨_, rfl⟩

theorem build_str_ok (w : World) (st : Caches) (bodyF evF : JObj)
    (hev : (bodyF.lookupKey "event").getD (.obj .nil) = .obj evF)
    (c : String) (hchan : (evF.lookupKey "channel").getD (.str "unknown") = .str c)
    (u : String) (huser : (evF.lookupKey "user").getD (.str "unknown") = .str u) :
    ∃ msg st', _build_direct_message_payload w st (.obj bodyF) = .ok (msg, st') := by
  simp only [_build_direct_message_payload, pyGetD, pyGet, hev, hchan, huser]
  obtain ⟨⟨cn, cc, kc⟩, hgcn⟩ := get_channel_name_str_ok w st.channel c
  rw [hgcn]
  obtain ⟨⟨un, uc, ku⟩, hgun⟩ := get_user_name_str_ok w st.user u
  rw [hgun]
  exact ⟨_, _, rfl⟩

theorem event_key_present (bodyF evF : JObj)
    (hev : (bodyF.lookupKey "event").getD (.obj .nil) = .obj evF)
    (hevtype : (evF.lookupKey "type").getD .null = .str "message") :
    bodyF.lookupKey "event" = some (.obj evF) := by
  cases hlk : bodyF.lookupKey "event" with
  | some v =>
    rw [hlk] at hev
    simp only [Option.getD_some] at hev
    rw [hev]
  | none =>
    rw [hlk] at hev
    simp only [Option.getD_none] at hev
    injection hev with h2
    rw [← h2] at hevtype
    simp [JObj.lookupKey] at hevtype

/-! ## C8 -/

/-- C8: for every authenticated event_callback message event (well-formed
string channel/user fields) that passes every filter step but whose text does
not contain the keyword `"prio1"`, the handler returns 200 `"ok"` and
nothing is sent to the queue sink. -/
theorem C8_no_keyword_suppresses_enqueue
    (w : World) (st : Caches) (event : LambdaEvent)
    (hb64 : event.isBase64Encoded = false)
    (hverify : _verify_slack_signature w (eventHeaders event) (eventRawBody event)
        = .ok (true, "ok"))
    (bodyF evF : JObj)
    (hloads : (if eventRawBody event = "" then Except.ok (Json.obj .nil)
               else jsonLoads (eventRawBody event)) = .ok (.obj bodyF))
    (htype : (bodyF.lookupKey "type").getD .null = .str "event_callback")
    (hev : (bodyF.lookupKey "event").getD (.obj .nil) = .obj evF)
    (hevtype : (evF.lookupKey "type").getD .null = .str "message")
    (hsub : pyTruthy ((evF.lookupKey "subtype").getD .null) = false)
    (hbot : evF.hasKey "bot_id" = false)
    (hallow : allowPass w evF)
    (c : String) (hchan : (evF.lookupKey "channel").getD (.str "unknown") = .str c)
    (u : String) (huser : (evF.lookupKey "user").getD (.str "unknown") = .str u)
    (q : String) (hq : dictGet w.env "SQS_URL" = some q)
    (s : String) (htext : evF.lookupKey "text" = some (.str s))
    (hkw : hasSubstr "prio1".data s.data = false) :
    ∃ st', lambda_handler w st event = .ok (⟨200, none, "ok"⟩, st', []) := by
  obtain ⟨msg, st2, hbuild⟩ := build_str_ok w st bodyF evF hev c hchan u huser
  have hevpresent := event_key_present bodyF evF hev hevtype
  have hne1 : pyEq (.str "event_callback") (.str "url_verification") = false := by rfl
  have heqcb : pyEq (.str "event_callback") (.str "event_callback") = true := by rfl
  have heqmsg : pyEq (.str "message") (.str "message") = true := by rfl
  refine ⟨st2, ?_⟩
  unfold lambda_handler
  rw [hb64, hverify, hloads]
  cases hac : dictGet w.env "ALLOWED_CHANNEL_ID" with
  | none =>
    simp [pyGet, pyGetD, pySubscript, pyIn, isUnhashable, htype, hne1, heqcb,
      heqmsg, hev, hevtype, hsub, hbot, hevpresent, htext, hq, hbuild, hkw, hac]
  | some a =>
    unfold allowPass at hallow
    rw [hac] at hallow
    by_cases ha0 : a = ""
    · simp [pyGet, pyGetD, pySubscript, pyIn, isUnhashable, htype, hne1, heqcb,
        heqmsg, hev, hevtype, hsub, hbot, hevpresent, htext, hq, hbuild, hkw, hac, ha0]
    · have ha : pyEq ((evF.lookupKey "channel").getD .null) (.str a) = true := by
        rcases hallow with h | h
        · exact absurd h ha0
        · exact h
      simp [pyGet, pyGetD, pySubscript, pyIn, isUnhashable, htype, hne1, heqcb,
        heqmsg, hev, hevtype, hsub, hbot, hevpresent, htext, hq, hbuild, hkw,
        hac, ha0, ha]

set_option maxRecDepth 200000 in
/-- Witness for C8: the concrete request over `rawBodyC8` (text
`"hello world"`, no keyword) against `w0` is accepted with 200 and sends
nothing. -/
theorem C8_witness :
    _verify_slack_signature w0
        (eventHeaders ⟨some (mkHdrs rawBodyC8), some rawBodyC8, false⟩)
        (eventRawBody ⟨some (mkHdrs rawBodyC8), some rawBodyC8, false⟩)
      = .ok (true, "ok")
    ∧ (if eventRawBody (⟨some (mkHdrs rawBodyC8), some rawBodyC8, false⟩ : LambdaEvent) = ""
       then Except.ok (Json.obj .nil)
       else jsonLoads (eventRawBody ⟨some (mkHdrs rawBodyC8), some rawBodyC8, false⟩))
        = .ok (.obj bodyF8)
    ∧ (bodyF8.lookupKey "type").getD .null = .str "event_callback"
    ∧ (bodyF8.lookupKey "event").getD (.obj .nil) = .obj evF8
    ∧ (evF8.lookupKey "type").getD .null = .str "message"
    ∧ evF8.hasKey "bot_id" = false
    ∧ evF8.lookupKey "text" = some (.str "hello world")
    ∧ hasSubstr "prio1".data "hello world".data = false
    ∧ ∃ st', lambda_handler w0 ⟨[], []⟩ ⟨some (mkHdrs rawBodyC8), some rawBodyC8, false⟩
        = .ok (⟨200, none, "ok"⟩, st', []) :=
  ⟨by rfl, by rfl, by rfl, by rfl, by rfl, by rfl, by rfl, by rfl,
   C8_no_keyword_suppresses_enqueue w0 ⟨[], []⟩
     ⟨some (mkHdrs rawBodyC8), some rawBodyC8, false⟩ rfl (by rfl)
     bodyF8 evF8 (by rfl) rfl rfl rfl rfl rfl trivial
     "C1" rfl "U1" rfl "q" rfl "hello world" rfl (by rfl)⟩

/-! ## C10 -/

/-- C10: an authenticated event_callback message event with no subtype, no
bot marker, passing the allow-list, with well-formed string channel/user
fields but no `"text"` field, makes the handler raise `KeyError "text"` at
the keyword check `body["event"]["text"]` and return no response — although
`_build_direct_message_payload` itself succeeds on the same body, defaulting
the text to the empty string. -/
theorem C10_missing_text_raises_keyerror
    (w : World) (st : Caches) (event : LambdaEvent)
    (hb64 : event.isBase64Encoded = false)
    (hverify : _verify_slack_signature w (eventHeaders event) (eventRawBody event)
        = .ok (true, "ok"))
    (bodyF evF : JObj)
    (hloads : (if eventRawBody event = "" then Except.ok (Json.obj .nil)
               else jsonLoads (eventRawBody event)) = .ok (.obj bodyF))
    (htype : (bodyF.lookupKey "type").getD .null = .str "event_callback")
    (hev : (bodyF.lookupKey "event").getD (.obj .nil) = .obj evF)
    (hevtype : (evF.lookupKey "type").getD .null = .str "message")
    (hsub : pyTruthy ((evF.lookupKey "subtype").getD .null) = false)
    (hbot : evF.hasKey "bot_id" = false)
    (hallow : allowPass w evF)
    (c : String) (hchan : (evF.lookupKey "channel").getD (.str "unknown") = .str c)
    (u : String) (huser : (evF.lookupKey "user").getD (.str "unknown") = .str u)
    (q : String) (hq : dictGet w.env "SQS_URL" = some q)
    (hnotext : evF.lookupKey "text" = none) :
    lambda_handler w st event = .error (.keyError "text")
    ∧ ∃ msg st', _build_direct_message_payload w st (.obj bodyF) = .ok (msg, st') := by
  obtain ⟨msg, st2, hbuild⟩ := build_str_ok w st bodyF evF hev c hchan u huser
  have hevpresent := event_key_present bodyF evF hev hevtype
  have hne1 : pyEq (.str "event_callback") (.str "url_verification") = false := by rfl
  have heqcb : pyEq (.str "event_callback") (.str "event_callback") = true := by rfl
  have heqmsg : pyEq (.str "message") (.str "message") = true := by rfl
  refine ⟨?_, msg, st2, hbuild⟩
  unfold lambda_handler
  rw [hb64, hverify, hloads]
  cases hac : dictGet w.env "ALLOWED_CHANNEL_ID" with
  | none =>
    simp [pyGet, pyGetD, pySubscript, pyIn, isUnhashable, htype, hne1, heqcb,
      heqmsg, hev, hevtype, hsub, hbot, hevpresent, hnotext, hq, hbuild, hac]
  | some a =>
    unfold allowPass at hallow
    rw [hac] at hallow
    by_cases ha0 : a = ""
    · simp [pyGet, pyGetD, pySubscript, pyIn, isUnhashable, htype, hne1, heqcb,
        heqmsg, hev, hevtype, hsub, hbot, hevpresent, hnotext, hq, hbuild, hac, ha0]
    · have ha : pyEq ((evF.lookupKey "channel").getD .null) (.str a) = true := by
        rcases hallow with h | h
        · exact absurd h ha0
        · exact h
      simp [pyGet, pyGetD, pySubscript, pyIn, isUnhashable, htype, hne1, heqcb,
        heqmsg, hev, hevtype, hsub, hbot, hevpresent, hnotext, hq, hbuild,
        hac, ha0, ha]

set_option maxRecDepth 200000 in
/-- Witness for C10: the concrete request over `rawBodyC10` (no `"text"`
field) against `w0` raises `KeyError "text"`, while the payload builder
succeeds on the same body. -/
theorem C10_witness :
    _verify_slack_signature w0
        (eventHeaders ⟨some (mkHdrs rawBodyC10), some rawBodyC10, false⟩)
        (eventRawBody ⟨some (mkHdrs rawBodyC10), some rawBodyC10, false⟩)
      = .ok (true, "ok")
    ∧ (if eventRawBody (⟨some (mkHdrs rawBodyC10), some rawBodyC10, false⟩ : LambdaEvent) = ""
       then Except.ok (Json.obj .nil)
       else jsonLoads (eventRawBody ⟨some (mkHdrs rawBodyC10), some rawBodyC10, false⟩))
        = .ok (.obj bodyF10)
    ∧ evF10.lookupKey "text" = none
    ∧ (lambda_handler w0 ⟨[], []⟩ ⟨some (mkHdrs rawBodyC10), some rawBodyC10, false⟩
        = .error (.keyError "text")
       ∧ ∃ msg st', _build_direct_message_payload w0 ⟨[], []⟩ (.obj bodyF10)
          = .ok (msg, st')) :=
  ⟨by rfl, by rfl, by rfl,
   C10_missing_text_raises_keyerror w0 ⟨[], []⟩
     ⟨some (mkHdrs rawBodyC10), some rawBodyC10, false⟩ rfl (by rfl)
     bodyF10 evF10 (by rfl) rfl rfl rfl rfl rfl trivial
     "C1" rfl "U1" rfl "q" rfl rfl⟩

end Slack2Opsgenie
